import Mathlib

/-!
Shallow embedding of `src/visualisations/visualisationcontainer.cpp` from the
Clementine music player: the `VisualisationContainer` widget that hosts the
projectM visualisation scene.  The widget manages a repaint timer driven by an
fps setting, registers the scene as a buffer consumer of the audio engine while
visible, persists geometry and fps in a settings store (group "Visualisations"),
propagates resize events to the scene rectangle and the overlay, maps overlay
opacity to cursor visibility, and toggles the fullscreen window-state bit on
double click.

GUI-toolkit collaborators (scene graph, settings store, timers, cursors) are
embedded as explicit fields of `ContainerState`; the audio engine's consumer
registry, whose code is outside this file, is modelled from the spec's
"buffer consumer" contract as a multiset of engine ids currently holding the
scene as consumer, together with the explicit list of `AddBufferConsumer` /
`RemoveBufferConsumer` calls the widget issues.
-/

/-- Constant `VisualisationContainer::kDefaultFps` (line 36 of the source). -/
def kDefaultFps : Int := 35

/-- Constant `VisualisationContainer::kDefaultWidth` (line 34 of the source). -/
def kDefaultWidth : Int := 828

/-- Constant `VisualisationContainer::kDefaultHeight` (line 35 of the source). -/
def kDefaultHeight : Int := 512

/-- Qt's `Qt::WindowFullScreen` flag value (0x00000004), the bit XORed by
`ToggleFullscreen`. -/
def kWindowFullScreen : Nat := 4

/-- A call issued by the container on an audio engine (engines are identified
by numeric ids): registering or unregistering the visualisation scene as a
buffer consumer. -/
inductive EngineCall where
  | add : Nat → EngineCall
  | remove : Nat → EngineCall
deriving DecidableEq, Repr

/-- The state of a `VisualisationContainer` together with the external pieces
it mutates: the settings store keys of group "Visualisations", the scene
rectangle, the overlay widget, the cursor, the window state, and (modelled from
the spec's buffer-consumer contract) the multiset `subs` of engine ids that
currently hold the scene registered as a buffer consumer. -/
structure ContainerState where
  /-- `engine_`: the audio engine pointer, `NULL` until `SetEngine` is called. -/
  engine_ : Option Nat
  /-- Whether the widget is currently visible (`isVisible()`). -/
  visible : Bool
  /-- Whether `update_timer_` is running. -/
  timerActive : Bool
  /-- The interval `update_timer_` was last started with, in milliseconds. -/
  timerInterval : Int
  /-- `fps_`: the frames-per-second field. -/
  fps_ : Int
  /-- The "fps" key of the "Visualisations" settings group. -/
  settingsFps : Option Int
  /-- The "geometry" key of the "Visualisations" settings group (the geometry
  blob is opaque per the spec; it is modelled by the widget size it records). -/
  settingsGeometry : Option (Int × Int)
  /-- The widget's current size (`size()`), width times height. -/
  winSize : Int × Int
  /-- The scene rectangle: origin and size, as set by `setSceneRect`. -/
  sceneRect : (Int × Int) × (Int × Int)
  /-- The overlay widget's size, as set by `overlay_->resize`. -/
  overlaySize : Int × Int
  /-- The overlay proxy's opacity (`overlay_proxy_->setOpacity`). -/
  overlayOpacity : ℚ
  /-- Whether the widget cursor is currently set to `Qt::BlankCursor`
  (`false` means the cursor is unset, hence visible). -/
  cursorBlank : Bool
  /-- The window state bitmask (`windowState()`). -/
  windowState : Nat
  /-- Modelled from the spec: the audio-engine side "buffer consumer"
  registry, restricted to the visualisation scene. `AddBufferConsumer`
  (code not under src/) registers the scene with an engine, and
  `RemoveBufferConsumer` removes one such registration; `subs` lists the
  engine ids the scene is currently registered with, with multiplicity. -/
  subs : List Nat
deriving DecidableEq, Repr

/-- `VisualisationContainer::SetFps` (lines 199-209): store the new fps, write
it to the "fps" settings key, stop the update timer and restart it with
interval `1000 / fps_` (C++ integer division). -/
def SetFps (fps : Int) (s : ContainerState) : ContainerState :=
  { s with fps_ := fps,
           settingsFps := some fps,
           timerActive := true,
           timerInterval := 1000 / fps }

/-- Body of `VisualisationContainer::showEvent` (lines 106-112), which Qt runs
when the widget transitions to visible: start the update timer with interval
`1000 / fps_`, and if an engine is set, register the scene as one of its buffer
consumers.  Returns the new state and the engine calls issued. -/
def showEvent (s : ContainerState) : ContainerState × List EngineCall :=
  let s := { s with timerActive := true, timerInterval := 1000 / s.fps_ }
  match s.engine_ with
  | some e => ({ s with subs := s.subs ++ [e] }, [EngineCall.add e])
  | none => (s, [])

/-- Body of `VisualisationContainer::hideEvent` (lines 114-120), which Qt runs
when the widget transitions to hidden: stop the update timer, and if an engine
is set, remove the scene from its buffer consumers. -/
def hideEvent (s : ContainerState) : ContainerState × List EngineCall :=
  let s := { s with timerActive := false }
  match s.engine_ with
  | some e => ({ s with subs := s.subs.erase e }, [EngineCall.remove e])
  | none => (s, [])

/-- `VisualisationContainer::SetEngine` (lines 100-104): store the engine
pointer and, if the widget is currently visible, immediately register the
scene as a buffer consumer of that engine. -/
def SetEngine (e : Nat) (s : ContainerState) : ContainerState × List EngineCall :=
  let s := { s with engine_ := some e }
  if s.visible then ({ s with subs := s.subs ++ [e] }, [EngineCall.add e])
  else (s, [])

/-- `VisualisationContainer::SizeChanged` (lines 127-139): write the current
geometry to the "geometry" settings key, set the scene rectangle to
`QRect(QPoint(0, 0), size())`, and resize the overlay to `size()`. -/
def SizeChanged (s : ContainerState) : ContainerState :=
  { s with settingsGeometry := some s.winSize,
           sceneRect := ((0, 0), s.winSize),
           overlaySize := s.winSize }

/-- `VisualisationContainer::resizeEvent` (lines 122-125): after the base class
has recorded the new size, call `SizeChanged`. -/
def resizeEvent (w h : Int) (s : ContainerState) : ContainerState :=
  SizeChanged { s with winSize := (w, h) }

/-- `VisualisationContainer::ChangeOverlayOpacity` (lines 160-168): set the
overlay proxy's opacity to `value`; if `value < 0.5` set the blank cursor,
otherwise unset the cursor. -/
def ChangeOverlayOpacity (value : ℚ) (s : ContainerState) : ContainerState :=
  { s with overlayOpacity := value,
           cursorBlank := if value < (1 / 2 : ℚ) then true else false }

/-- `VisualisationContainer::ToggleFullscreen` (lines 195-197):
`setWindowState(windowState() ^ Qt::WindowFullScreen)`. -/
def ToggleFullscreen (s : ContainerState) : ContainerState :=
  { s with windowState := s.windowState ^^^ kWindowFullScreen }

/-- `VisualisationContainer::mouseDoubleClickEvent` (lines 185-188): forward to
the base class, then call `ToggleFullscreen` (once). -/
def mouseDoubleClickEvent (s : ContainerState) : ContainerState :=
  ToggleFullscreen s

/-- The constructor `VisualisationContainer::VisualisationContainer`
(lines 38-89), given the stored "geometry" and "fps" values of the
"Visualisations" settings group (`none` when the store holds no value for the
key): the widget starts hidden with no engine; `ChangeOverlayOpacity(0.0)` is
called; `restoreGeometry` restores the stored size or falls back to
`resize(kDefaultWidth, kDefaultHeight)`; `fps_ = s.value("fps",
kDefaultFps).toInt()`; finally `SizeChanged()` runs. -/
def construct (storedGeometry : Option (Int × Int)) (storedFps : Option Int) :
    ContainerState :=
  let base : ContainerState :=
    { engine_ := none,
      visible := false,
      timerActive := false,
      timerInterval := 0,
      fps_ := kDefaultFps,
      settingsFps := storedFps,
      settingsGeometry := storedGeometry,
      winSize := (0, 0),
      sceneRect := ((0, 0), (0, 0)),
      overlaySize := (0, 0),
      overlayOpacity := 0,
      cursorBlank := false,
      windowState := 0,
      subs := [] }
  let s := ChangeOverlayOpacity 0 base
  let s := { s with winSize := storedGeometry.getD (kDefaultWidth, kDefaultHeight) }
  let s := { s with fps_ := storedFps.getD kDefaultFps }
  SizeChanged s

/-- The operations the claims quantify over: Qt visibility transitions,
`SetEngine`, the fps menu (`SetFps`), resizes, overlay opacity changes and
double clicks. -/
inductive Op where
  | shown : Op
  | hidden : Op
  | setEngine : Nat → Op
  | setFps : Int → Op
  | resize : Int → Int → Op
  | changeOpacity : ℚ → Op
  | doubleClick : Op
deriving DecidableEq, Repr

/-- One step of the container's event loop.  Qt delivers `showEvent` /
`hideEvent` only on actual visibility transitions, so `show` on a visible
widget and `hide` on a hidden widget are no-ops.  Returns the successor state
and the engine calls issued during the step. -/
def step (s : ContainerState) : Op → ContainerState × List EngineCall
  | Op.shown => if s.visible then (s, []) else showEvent { s with visible := true }
  | Op.hidden => if s.visible then hideEvent { s with visible := false } else (s, [])
  | Op.setEngine e => SetEngine e s
  | Op.setFps f => (SetFps f s, [])
  | Op.resize w h => (resizeEvent w h s, [])
  | Op.changeOpacity v => (ChangeOverlayOpacity v s, [])
  | Op.doubleClick => (mouseDoubleClickEvent s, [])

/-- Run a sequence of operations, collecting all engine calls in order. -/
def run (s : ContainerState) : List Op → ContainerState × List EngineCall
  | [] => (s, [])
  | op :: ops =>
    let r := step s op
    let r' := run r.1 ops
    (r'.1, r.2 ++ r'.2)

/-- The state after running a sequence of operations. -/
def runState (s : ContainerState) (ops : List Op) : ContainerState :=
  (run s ops).1

/-- `true` when `op` is not a `setEngine` operation fired while the widget is
visible in state `s`. -/
def allowedSetEngine (s : ContainerState) : Op → Bool
  | Op.setEngine _ => !s.visible
  | _ => true

/-- `true` when every `setEngine` operation of the sequence executes while the
widget is hidden. -/
def hiddenSetEngineOnly (s : ContainerState) : List Op → Bool
  | [] => true
  | op :: ops => allowedSetEngine s op && hiddenSetEngineOnly (step s op).1 ops

/-- `true` when the sequence contains a `setFps` operation. -/
def hasSetFps : List Op → Bool
  | [] => false
  | Op.setFps _ :: _ => true
  | _ :: ops => hasSetFps ops

/-- The fps values passed to `SetFps` during the sequence. -/
def fpsArgs : List Op → List Int
  | [] => []
  | Op.setFps f :: ops => f :: fpsArgs ops
  | _ :: ops => fpsArgs ops

/-- Whether the single step executes one of the unguarded integer divisions
`1000 / fps_` of `showEvent` (line 108) or `1000 / fps_` of `SetFps`
(line 208) with divisor zero. -/
def stepDividesByZero (s : ContainerState) : Op → Bool
  | Op.shown => !s.visible && s.fps_ == 0
  | Op.setFps f => f == 0
  | _ => false

/-- Whether some step of the sequence executes a division with divisor zero. -/
def dividesByZero (s : ContainerState) : List Op → Bool
  | [] => false
  | op :: ops => stepDividesByZero s op || dividesByZero (step s op).1 ops

/-- The container as constructed from an empty settings store. -/
def initialState : ContainerState := construct none none

/-- Invariant relating the engine-side registration multiset to the widget
state: the scene is registered exactly with the current engine while visible,
and with no engine while hidden. -/
def GoodState (s : ContainerState) : Prop :=
  s.subs = (if s.visible then s.engine_.toList else [])

/-- Invariant: while the widget is visible, the update timer runs with
interval `1000 / fps_`. -/
def TimerInv (s : ContainerState) : Prop :=
  s.visible = true → (s.timerActive = true ∧ s.timerInterval = 1000 / s.fps_)

theorem goodState_construct (g : Option (Int × Int)) (f : Option Int) :
    GoodState (construct g f) := by
  simp [GoodState, construct, ChangeOverlayOpacity, SizeChanged]

theorem goodState_step (s : ContainerState) (op : Op) (h : GoodState s)
    (hop : allowedSetEngine s op = true) : GoodState (step s op).1 := by
  unfold GoodState at h ⊢
  cases op with
  | shown =>
    cases hv : s.visible with
    | true => simp [step, hv]; simpa [hv] using h
    | false =>
      cases he : s.engine_ with
      | none => simp [step, hv, showEvent, he]; simp [hv] at h; simp [h]
      | some e => simp [step, hv, showEvent, he]; simp [hv] at h; simp [h]
  | hidden =>
    cases hv : s.visible with
    | false => simp [step, hv]; simpa [hv] using h
    | true =>
      cases he : s.engine_ with
      | none => simp [step, hv, hideEvent, he]; simp [hv, he] at h; simp [h]
      | some e => simp [step, hv, hideEvent, he]; simp [hv, he] at h; simp [h]
  | setEngine e =>
    have hv : s.visible = false := by simpa [allowedSetEngine] using hop
    simp [step, SetEngine, hv]; simp [hv] at h; simp [h]
  | setFps f => simpa [step, SetFps] using h
  | resize w hh => simpa [step, resizeEvent, SizeChanged] using h
  | changeOpacity v => simpa [step, ChangeOverlayOpacity] using h
  | doubleClick => simpa [step, mouseDoubleClickEvent, ToggleFullscreen] using h

theorem goodState_run (ops : List Op) (s : ContainerState) (h : GoodState s)
    (hh : hiddenSetEngineOnly s ops = true) : GoodState (run s ops).1 := by
  induction ops generalizing s with
  | nil => simpa [run] using h
  | cons op ops ih =>
    rw [hiddenSetEngineOnly, Bool.and_eq_true] at hh
    have h1 : GoodState (step s op).1 := goodState_step s op h hh.1
    simpa [run] using ih (step s op).1 h1 hh.2

theorem timerInv_construct (g : Option (Int × Int)) (f : Option Int) :
    TimerInv (construct g f) := by
  simp [TimerInv, construct, ChangeOverlayOpacity, SizeChanged]

theorem timerInv_step (s : ContainerState) (op : Op) (h : TimerInv s) :
    TimerInv (step s op).1 := by
  unfold TimerInv at h ⊢
  cases op with
  | shown =>
    cases hv : s.visible with
    | true => simpa [step, hv] using h
    | false =>
      cases he : s.engine_ with
      | none => simp [step, hv, showEvent, he]
      | some e => simp [step, hv, showEvent, he]
  | hidden =>
    cases hv : s.visible with
    | false => simpa [step, hv] using h
    | true =>
      cases he : s.engine_ with
      | none => simp [step, hv, hideEvent, he]
      | some e => simp [step, hv, hideEvent, he]
  | setEngine e =>
    cases hv : s.visible with
    | true => simpa [step, SetEngine, hv] using h
    | false => simpa [step, SetEngine, hv] using h
  | setFps f => intro _; simp [step, SetFps]
  | resize w hh => simpa [step, resizeEvent, SizeChanged] using h
  | changeOpacity v => simpa [step, ChangeOverlayOpacity] using h
  | doubleClick => simpa [step, mouseDoubleClickEvent, ToggleFullscreen] using h

theorem timerInv_run (ops : List Op) (s : ContainerState) (h : TimerInv s) :
    TimerInv (run s ops).1 := by
  induction ops generalizing s with
  | nil => simpa [run] using h
  | cons op ops ih => simpa [run] using ih (step s op).1 (timerInv_step s op h)

theorem timerMatches_run (ops : List Op) (s : ContainerState)
    (hno : hasSetFps ops = false) (h : s.timerActive = s.visible) :
    (run s ops).1.timerActive = (run s ops).1.visible := by
  induction ops generalizing s with
  | nil => simpa [run] using h
  | cons op ops ih =>
    have hno' : hasSetFps ops = false := by
      cases op <;> simpa [hasSetFps] using hno
    have hstep : (step s op).1.timerActive = (step s op).1.visible := by
      cases op with
      | shown =>
        cases hv : s.visible with
        | true => simpa [step, hv] using h
        | false =>
          cases he : s.engine_ with
          | none => simp [step, hv, showEvent, he]
          | some e => simp [step, hv, showEvent, he]
      | hidden =>
        cases hv : s.visible with
        | false => simpa [step, hv] using h
        | true =>
          cases he : s.engine_ with
          | none => simp [step, hv, hideEvent, he]
          | some e => simp [step, hv, hideEvent, he]
      | setEngine e =>
        cases hv : s.visible with
        | true => simpa [step, SetEngine, hv] using h
        | false => simpa [step, SetEngine, hv] using h
      | setFps f => simp [hasSetFps] at hno
      | resize w hh => simpa [step, resizeEvent, SizeChanged] using h
      | changeOpacity v => simpa [step, ChangeOverlayOpacity] using h
      | doubleClick => simpa [step, mouseDoubleClickEvent, ToggleFullscreen] using h
    simpa [run] using ih (step s op).1 hno' hstep

theorem fps_step_eq (s : ContainerState) (op : Op) (hop : ∀ f, op ≠ Op.setFps f) :
    (step s op).1.fps_ = s.fps_ := by
  cases op with
  | shown =>
    cases hv : s.visible with
    | true => simp [step, hv]
    | false =>
      cases he : s.engine_ with
      | none => simp [step, hv, showEvent, he]
      | some e => simp [step, hv, showEvent, he]
  | hidden =>
    cases hv : s.visible with
    | false => simp [step, hv]
    | true =>
      cases he : s.engine_ with
      | none => simp [step, hv, hideEvent, he]
      | some e => simp [step, hv, hideEvent, he]
  | setEngine e => cases hv : s.visible with
    | true => simp [step, SetEngine, hv]
    | false => simp [step, SetEngine, hv]
  | setFps f => exact absurd rfl (hop f)
  | resize w hh => simp [step, resizeEvent, SizeChanged]
  | changeOpacity v => simp [step, ChangeOverlayOpacity]
  | doubleClick => simp [step, mouseDoubleClickEvent, ToggleFullscreen]

theorem noDiv_run (ops : List Op) (s : ContainerState) (hf : s.fps_ ≠ 0)
    (hargs : ∀ f ∈ fpsArgs ops, f ≠ 0) : dividesByZero s ops = false := by
  induction ops generalizing s with
  | nil => simp [dividesByZero]
  | cons op ops ih =>
    rw [dividesByZero, Bool.or_eq_false_iff]
    refine ⟨?_, ?_⟩
    · cases op with
      | shown => simp [stepDividesByZero, hf]
      | setFps f =>
        have : f ≠ 0 := hargs f (by simp [fpsArgs])
        simp [stepDividesByZero, this]
      | hidden => simp [stepDividesByZero]
      | setEngine e => simp [stepDividesByZero]
      | resize w hh => simp [stepDividesByZero]
      | changeOpacity v => simp [stepDividesByZero]
      | doubleClick => simp [stepDividesByZero]
    · have hf' : (step s op).1.fps_ ≠ 0 := by
        cases op with
        | setFps f =>
          have hne : f ≠ 0 := hargs f (by simp [fpsArgs])
          simpa [step, SetFps] using hne
        | shown => rw [fps_step_eq s Op.shown (by simp)]; exact hf
        | hidden => rw [fps_step_eq s Op.hidden (by simp)]; exact hf
        | setEngine e => rw [fps_step_eq s (Op.setEngine e) (by simp)]; exact hf
        | resize w hh => rw [fps_step_eq s (Op.resize w hh) (by simp)]; exact hf
        | changeOpacity v => rw [fps_step_eq s (Op.changeOpacity v) (by simp)]; exact hf
        | doubleClick => rw [fps_step_eq s Op.doubleClick (by simp)]; exact hf
      have hargs' : ∀ f ∈ fpsArgs ops, f ≠ 0 := by
        intro f hm
        refine hargs f ?_
        cases op <;> simp [fpsArgs, hm]
      exact ih (step s op).1 hf' hargs'

theorem construct_visible (g : Option (Int × Int)) (f : Option Int) :
    (construct g f).visible = false := by
  simp [construct, SizeChanged, ChangeOverlayOpacity]

theorem construct_timerActive (g : Option (Int × Int)) (f : Option Int) :
    (construct g f).timerActive = false := by
  simp [construct, SizeChanged, ChangeOverlayOpacity]

theorem construct_fps (g : Option (Int × Int)) (f : Option Int) :
    (construct g f).fps_ = f.getD kDefaultFps := by
  simp [construct, SizeChanged, ChangeOverlayOpacity]

/-- C1: for every positive integer `f`, `SetFps f` stores `f` in the `fps_`
field, writes `f` to the "fps" key of the "Visualisations" settings group and
restarts the update timer with interval `1000 / f` (integer division), and in
every reachable state the timer interval equals `1000 / fps_` while the
container is visible. -/
theorem setFps_spec (s : ContainerState) (f : Int) (hf : 0 < f) :
    (SetFps f s).fps_ = f ∧
    (SetFps f s).settingsFps = some f ∧
    (SetFps f s).timerActive = true ∧
    (SetFps f s).timerInterval = 1000 / f ∧
    (SetFps f s).timerInterval = 1000 / (SetFps f s).fps_ ∧
    (∀ (g : Option (Int × Int)) (sf : Option Int) (ops : List Op),
      (runState (construct g sf) ops).visible = true →
      (runState (construct g sf) ops).timerInterval =
        1000 / (runState (construct g sf) ops).fps_) := by
  refine ⟨by simp [SetFps], by simp [SetFps], by simp [SetFps], by simp [SetFps],
    by simp [SetFps], ?_⟩
  intro g sf ops hv
  exact ((timerInv_run ops _ (timerInv_construct g sf)) hv).2

/-- Witness for `setFps_spec` at `f = 25` on the freshly constructed
container: `1000 / 25 = 40`. -/
theorem setFps_spec_w :
    (SetFps 25 initialState).fps_ = 25 ∧
    (SetFps 25 initialState).timerInterval = 1000 / 25 := by
  have h := setFps_spec initialState 25 (by decide)
  exact ⟨h.1, h.2.2.2.1⟩

/-- C2 counterexample: on the freshly constructed container no engine is set
(`engine_` is `NULL`), so the very first transition to visible starts the
timer but issues no `AddBufferConsumer` call and registers the scene with no
audio engine, refuting the unconditional registration clause of the claim. -/
theorem show_without_engine_no_subscribe :
    initialState.visible = false ∧
    (runState initialState [Op.shown]).visible = true ∧
    (runState initialState [Op.shown]).timerActive = true ∧
    (run initialState [Op.shown]).2 = [] ∧
    (runState initialState [Op.shown]).subs = [] := by decide

/-- C2 (amended): whenever the container becomes visible, the repaint timer is
started with interval `1000 / fps_` and, if an engine has been set, the scene
is registered with it by exactly one `AddBufferConsumer` call (no call is made
when no engine is set); whenever the container becomes hidden, the timer is
stopped and, if an engine has been set, the scene is unregistered by exactly
one `RemoveBufferConsumer` call. -/
theorem visibility_timer_subscription (s : ContainerState) :
    (s.visible = false →
      ((step s Op.shown).1.timerActive = true ∧
       (step s Op.shown).1.timerInterval = 1000 / s.fps_ ∧
       (∀ e, s.engine_ = some e → (step s Op.shown).2 = [EngineCall.add e]) ∧
       (s.engine_ = none → (step s Op.shown).2 = []))) ∧
    (s.visible = true →
      ((step s Op.hidden).1.timerActive = false ∧
       (∀ e, s.engine_ = some e → (step s Op.hidden).2 = [EngineCall.remove e]) ∧
       (s.engine_ = none → (step s Op.hidden).2 = []))) := by
  constructor
  · intro hv
    refine ⟨?_, ?_, ?_, ?_⟩
    · cases he : s.engine_ <;> simp [step, hv, showEvent, he]
    · cases he : s.engine_ <;> simp [step, hv, showEvent, he]
    · intro e he; simp [step, hv, showEvent, he]
    · intro he; simp [step, hv, showEvent, he]
  · intro hv
    refine ⟨?_, ?_, ?_⟩
    · cases he : s.engine_ <;> simp [step, hv, hideEvent, he]
    · intro e he; simp [step, hv, hideEvent, he]
    · intro he; simp [step, hv, hideEvent, he]

/-- Witness for `visibility_timer_subscription`: after `SetEngine 0` on the
fresh (hidden) container, showing starts the timer and issues exactly one
`AddBufferConsumer` call; hiding again issues exactly one
`RemoveBufferConsumer` call. -/
theorem visibility_timer_subscription_w :
    (step (runState initialState [Op.setEngine 0]) Op.shown).1.timerActive = true ∧
    (step (runState initialState [Op.setEngine 0]) Op.shown).2 = [EngineCall.add 0] ∧
    (step (runState initialState [Op.setEngine 0, Op.shown]) Op.hidden).2 =
      [EngineCall.remove 0] := by
  have h1 := (visibility_timer_subscription (runState initialState [Op.setEngine 0])).1
    (by decide)
  have h2 := (visibility_timer_subscription
    (runState initialState [Op.setEngine 0, Op.shown])).2 (by decide)
  exact ⟨h1.1, h1.2.2.1 0 (by decide), h2.2.1 0 (by decide)⟩

/-- C3 counterexample: calling `SetEngine` a second time while the container
is visible issues a second `AddBufferConsumer` call with no intervening
`RemoveBufferConsumer`, so within a single visibility cycle two subscribes
occur and the scene is registered twice at once, refuting the claim. -/
theorem double_setEngine_double_subscribe :
    (run initialState [Op.setEngine 0, Op.shown, Op.setEngine 0]).2 =
      [EngineCall.add 0, EngineCall.add 0] ∧
    (runState initialState [Op.setEngine 0, Op.shown, Op.setEngine 0]).subs = [0, 0] ∧
    2 ≤ (runState initialState [Op.setEngine 0, Op.shown, Op.setEngine 0]).subs.length := by
  decide

/-- C3 (amended): provided every `SetEngine` call happens while the container
is hidden, subscribe and unsubscribe calls pair up per visibility cycle: in
any reachable state, a transition to visible issues exactly one
`AddBufferConsumer` call when an engine is set and none otherwise, a
transition back to hidden issues exactly one `RemoveBufferConsumer` call when
an engine is set (leaving the scene unregistered), and the scene is never
registered more than once at a time. -/
theorem subscribe_unsubscribe_pairing (g : Option (Int × Int)) (f : Option Int)
    (ops : List Op) (h : hiddenSetEngineOnly (construct g f) ops = true) :
    (∀ e, (runState (construct g f) ops).visible = false →
        (runState (construct g f) ops).engine_ = some e →
        (step (runState (construct g f) ops) Op.shown).2 = [EngineCall.add e]) ∧
    ((runState (construct g f) ops).visible = false →
        (runState (construct g f) ops).engine_ = none →
        (step (runState (construct g f) ops) Op.shown).2 = []) ∧
    (∀ e, (runState (construct g f) ops).visible = true →
        (runState (construct g f) ops).engine_ = some e →
        (step (runState (construct g f) ops) Op.hidden).2 = [EngineCall.remove e] ∧
        (step (runState (construct g f) ops) Op.hidden).1.subs = []) ∧
    (runState (construct g f) ops).subs.length ≤ 1 := by
  have hg : GoodState (runState (construct g f) ops) :=
    goodState_run ops _ (goodState_construct g f) h
  refine ⟨?_, ?_, ?_, ?_⟩
  · intro e hv he; simp [step, hv, showEvent, he]
  · intro hv he; simp [step, hv, showEvent, he]
  · intro e hv he
    have hsubs : (runState (construct g f) ops).subs = [e] := by
      rw [GoodState, hv, he] at hg; simpa using hg
    constructor
    · simp [step, hv, hideEvent, he]
    · simp [step, hv, hideEvent, he, hsubs]
  · rw [GoodState] at hg
    rw [hg]
    cases hv : (runState (construct g f) ops).visible
    · simp
    · cases he : (runState (construct g f) ops).engine_ <;> simp

/-- Witness for `subscribe_unsubscribe_pairing` on the trace `SetEngine 0`
(while hidden) followed by `show`: hiding issues exactly one remove call, and
the registration count is one. -/
theorem subscribe_unsubscribe_pairing_w :
    (step (runState (construct none none) [Op.setEngine 0, Op.shown]) Op.hidden).2 =
      [EngineCall.remove 0] ∧
    (runState (construct none none) [Op.setEngine 0, Op.shown]).subs.length ≤ 1 := by
  have h := subscribe_unsubscribe_pairing none none [Op.setEngine 0, Op.shown] (by decide)
  exact ⟨(h.2.2.1 0 (by decide) (by decide)).1, h.2.2.2⟩

/-- C4 counterexample: set engine 0, show (scene registered with engine 0),
swap to engine 1 while visible, then hide.  Hiding removes the scene only
from the current engine 1, so in the resulting hidden state the scene is
still registered with engine 0, which would keep delivering buffers while the
container is hidden — refuting the claimed invariant. -/
theorem engine_swap_stale_subscription :
    (runState initialState [Op.setEngine 0, Op.shown, Op.setEngine 1, Op.hidden]).visible
      = false ∧
    (runState initialState [Op.setEngine 0, Op.shown, Op.setEngine 1, Op.hidden]).subs
      = [0] ∧
    (run initialState [Op.setEngine 0, Op.shown, Op.setEngine 1, Op.hidden]).2 =
      [EngineCall.add 0, EngineCall.add 1, EngineCall.remove 1] := by decide

/-- C4 (amended): `SetEngine` subscribes only when the container is visible,
and provided `SetEngine` is never called while the container is visible, in
every reachable state the scene is registered as a buffer consumer only while
the container is shown: when hidden it is registered with no engine. -/
theorem registered_only_while_visible (g : Option (Int × Int)) (f : Option Int)
    (ops : List Op) (h : hiddenSetEngineOnly (construct g f) ops = true) :
    ((runState (construct g f) ops).visible = false →
        (runState (construct g f) ops).subs = []) ∧
    ((runState (construct g f) ops).subs ≠ [] →
        (runState (construct g f) ops).visible = true) ∧
    (∀ (s : ContainerState) (e : Nat), s.visible = false →
        (step s (Op.setEngine e)).2 = []) := by
  have hg : GoodState (runState (construct g f) ops) :=
    goodState_run ops _ (goodState_construct g f) h
  refine ⟨?_, ?_, ?_⟩
  · intro hv; rw [GoodState, hv] at hg; simpa using hg
  · intro hs
    cases hv : (runState (construct g f) ops).visible with
    | true => rfl
    | false =>
      rw [GoodState, hv] at hg
      exact absurd (by simpa using hg) hs
  · intro s e hv; simp [step, SetEngine, hv]

/-- Witness for `registered_only_while_visible` on the trace `SetEngine 0`,
`show`, `hide`: in the final hidden state the scene is registered with no
engine, and a `SetEngine` call on the fresh hidden container subscribes
nothing. -/
theorem registered_only_while_visible_w :
    (runState (construct none none) [Op.setEngine 0, Op.shown, Op.hidden]).subs = [] ∧
    (step (construct none none) (Op.setEngine 5)).2 = [] := by
  have h := registered_only_while_visible none none [Op.setEngine 0, Op.shown, Op.hidden]
    (by decide)
  exact ⟨h.1 (by decide), h.2.2 (construct none none) 5 (by decide)⟩

/-- C5: every resize event sets the scene rectangle to origin `(0, 0)` with
the new widget size, resizes the overlay to the same new size, and persists
the geometry under the "geometry" key of the "Visualisations" settings
group. -/
theorem resizeEvent_spec (s : ContainerState) (w h : Int) :
    (resizeEvent w h s).sceneRect = ((0, 0), (w, h)) ∧
    (resizeEvent w h s).overlaySize = (w, h) ∧
    (resizeEvent w h s).winSize = (w, h) ∧
    (resizeEvent w h s).settingsGeometry = some (w, h) := by
  simp [resizeEvent, SizeChanged]

/-- C6: `ChangeOverlayOpacity v` sets the overlay proxy's opacity to `v`, and
the cursor is set to the blank (hidden) cursor exactly when `v < 0.5`; for
`v ≥ 0.5` the cursor is unset, hence visible. -/
theorem changeOverlayOpacity_spec (s : ContainerState) (v : ℚ) :
    (ChangeOverlayOpacity v s).overlayOpacity = v ∧
    ((ChangeOverlayOpacity v s).cursorBlank = true ↔ v < 1 / 2) ∧
    ((1 : ℚ) / 2 ≤ v → (ChangeOverlayOpacity v s).cursorBlank = false) := by
  refine ⟨by simp [ChangeOverlayOpacity], ?_, ?_⟩
  · by_cases hv : v < 1 / 2 <;> simp [ChangeOverlayOpacity, hv]
  · intro hv
    have hnv : ¬(v < 1 / 2) := not_lt.mpr hv
    show (if v < (1 / 2 : ℚ) then true else false) = false
    rw [if_neg hnv]

/-- Witness for `changeOverlayOpacity_spec` at `v = 1/4` (blank cursor) and
`v = 3/4` (visible cursor). -/
theorem changeOverlayOpacity_spec_w :
    (ChangeOverlayOpacity (1 / 4) initialState).cursorBlank = true ∧
    (ChangeOverlayOpacity (3 / 4) initialState).cursorBlank = false := by
  have h1 := changeOverlayOpacity_spec initialState (1 / 4)
  have h2 := changeOverlayOpacity_spec initialState (3 / 4)
  exact ⟨h1.2.1.mpr (by norm_num), h2.2.2 (by norm_num)⟩

/-- C7: at construction the fps field is the stored "fps" value of the
"Visualisations" settings group when one exists, and the default
`kDefaultFps = 35` otherwise. -/
theorem construct_fps_default (g : Option (Int × Int)) :
    (construct g none).fps_ = 35 ∧
    kDefaultFps = 35 ∧
    (∀ v : Int, (construct g (some v)).fps_ = v) := by
  refine ⟨?_, rfl, ?_⟩
  · rw [construct_fps]; rfl
  · intro v; rw [construct_fps]; rfl

/-- C8: a double click invokes `ToggleFullscreen` exactly once;
`ToggleFullscreen` XORs the window state with the fullscreen flag, so it
changes exactly the fullscreen bit (the XOR difference between the old and
new window state is precisely `Qt::WindowFullScreen`) and applying it twice
restores the original state. -/
theorem doubleClick_fullscreen_involution (s : ContainerState) :
    mouseDoubleClickEvent s = ToggleFullscreen s ∧
    ToggleFullscreen (ToggleFullscreen s) = s ∧
    ((ToggleFullscreen s).windowState ^^^ s.windowState) = kWindowFullScreen := by
  refine ⟨rfl, ?_, ?_⟩
  · have hx : s.windowState ^^^ kWindowFullScreen ^^^ kWindowFullScreen = s.windowState := by
      rw [Nat.xor_assoc, Nat.xor_self, Nat.xor_zero]
    simp [ToggleFullscreen, hx]
  · show s.windowState ^^^ kWindowFullScreen ^^^ s.windowState = kWindowFullScreen
    rw [Nat.xor_comm s.windowState kWindowFullScreen, Nat.xor_assoc, Nat.xor_self,
      Nat.xor_zero]

/-- C9: the divisions `1000 / fps_` in `showEvent` and `SetFps` are unguarded
and the fps value loaded at construction is not validated; over all operation
sequences whose `SetFps` arguments are drawn from a given set of values, no
division by zero is ever executed exactly when the stored fps and every value
in that set are nonzero. -/
theorem division_by_zero_reachability (d : Int) (allowed : List Int) :
    (∀ ops : List Op, (∀ f ∈ fpsArgs ops, f ∈ allowed) →
        dividesByZero (construct none (some d)) ops = false) ↔
    (d ≠ 0 ∧ ∀ f ∈ allowed, f ≠ 0) := by
  constructor
  · intro h
    constructor
    · intro hd
      have h1 := h [Op.shown] (by simp [fpsArgs])
      rw [dividesByZero] at h1
      simp [stepDividesByZero, construct_visible, construct_fps, hd] at h1
    · intro f hf hf0
      have h1 := h [Op.setFps f] (by simpa [fpsArgs] using hf)
      rw [dividesByZero] at h1
      simp [stepDividesByZero, hf0] at h1
  · rintro ⟨hd, hall⟩ ops hops
    refine noDiv_run ops _ ?_ ?_
    · rw [construct_fps]; simpa using hd
    · intro f hm; exact hall f (hops f hm)

/-- Witness for `division_by_zero_reachability`: with stored fps 35 and menu
values 15 and 25 no trace divides by zero; the concrete trace show-then-setFps
is evaluated explicitly. -/
theorem division_by_zero_reachability_w :
    dividesByZero (construct none (some 35)) [Op.shown, Op.setFps 15] = false := by
  exact (division_by_zero_reachability 35 [15, 25]).mpr (by decide)
    [Op.shown, Op.setFps 15] (by decide)

/-- C10: `SetFps` stops and restarts the update timer unconditionally, so
calling it on a hidden container leaves the timer running while hidden,
whereas without any `SetFps` call every reachable state has the timer running
exactly when the container is visible. -/
theorem setFps_ignores_visibility (s : ContainerState) (f : Int)
    (h : s.visible = false) :
    (SetFps f s).timerActive = true ∧
    (SetFps f s).visible = false ∧
    (∀ (g : Option (Int × Int)) (sf : Option Int) (ops : List Op),
      hasSetFps ops = false →
      (runState (construct g sf) ops).timerActive =
        (runState (construct g sf) ops).visible) := by
  refine ⟨by simp [SetFps], by simp [SetFps, h], ?_⟩
  intro g sf ops hno
  exact timerMatches_run ops _ hno (by rw [construct_timerActive, construct_visible])

/-- Witness for `setFps_ignores_visibility`: `SetFps 60` on the freshly
constructed (hidden) container leaves the timer running while hidden. -/
theorem setFps_ignores_visibility_w :
    (SetFps 60 initialState).timerActive = true ∧
    (SetFps 60 initialState).visible = false := by
  have h := setFps_ignores_visibility initialState 60 (by decide)
  exact ⟨h.1, h.2.1⟩
